import Mathlib

/-!
Shallow embedding of the lead-nurturing CRM agent repository: the query
router, the Text-to-SQL answer formatter, the LangGraph agent dispatch,
document ingestion, document upload, campaign creation, lead shortlisting
and the campaign-lead lifecycle, together with theorems checking the
specification's claims about them.

Strings model Python strings; `Option` models nullable fields and SQL NULL;
`Except` models raised exceptions (an atomic transaction that raises is an
`Except.error`, so no records are created); side effects that the claims
mention (ingestion logs, created rows, backend invocations) are returned
explicitly as values.
-/

/-- `needle` is a prefix of `haystack`, on character lists. -/
def startsWithL : List Char → List Char → Bool
  | [], _ => true
  | _ :: _, [] => false
  | a :: as, b :: bs => a == b && startsWithL as bs

/-- `needle` occurs contiguously in the haystack, on character lists
(the semantics of Python's `in` on strings). -/
def containsSubL (needle : List Char) : List Char → Bool
  | [] => startsWithL needle []
  | b :: bs => startsWithL needle (b :: bs) || containsSubL needle bs

/-- Python's `needle in haystack` on strings. -/
def strContainsSub (haystack needle : String) : Bool :=
  containsSubL needle.data haystack.data

/-- The keyword set of the router's heuristic fallback
(`QueryRouter.decide`, src/agents/langgraph_agent.py lines 69-83). -/
def sqlKeywords : List String :=
  ["count", "number", "total", "average", "avg", "sum", "ratio", "metrics",
   "how many", "max", "min", "budget", "revenue"]

/-- The keyword fallback at the end of `QueryRouter.decide`: route to
`"t2sql"` when the lowercased query contains any SQL keyword, else `"rag"`. -/
def routerFallback (query : String) : String :=
  if sqlKeywords.any (fun k => strContainsSub query.toLower k) then "t2sql" else "rag"

/-- `QueryRouter.decide` (src/agents/langgraph_agent.py lines 49-86).
`llmReply = some content` models a successful LLM call returning `content`;
`none` models the call raising (the `except` branch). -/
def QueryRouter.decide (query : String) (llmReply : Option String) : String :=
  match llmReply with
  | some content =>
      let decision := content.trim.toLower
      if strContainsSub decision "sql" then "t2sql"
      else if strContainsSub decision "rag" then "rag"
      else routerFallback query
  | none => routerFallback query

/-- `TextToSQLResult` (src/agents/t2sql.py): rows are association lists in
column order, values already rendered as strings. -/
structure TextToSQLResult where
  sql : String
  rows : List (List (String × String))
  explanation : String

/-- Python's `key.replace("_", " ")`. -/
def underscoreToSpace (s : String) : String :=
  s.replace "_" " "

/-- The qualifier phrases of `T2SQLAnswerFormatter.format`, in the order the
code appends them (src/agents/langgraph_agent.py lines 160-166). -/
def t2sqlQualifiers (question : String) : List String :=
  let ql := question.toLower
  (if strContainsSub ql "connected" then ["for connected leads"] else [])
  ++ (if strContainsSub ql "budget" then ["for the requested budget"] else [])
  ++ (if strContainsSub ql "status" && !(strContainsSub ql "connected")
      then ["for the requested status"] else [])

/-- One bullet line of the multi-row branch of `T2SQLAnswerFormatter.format`. -/
def bulletLine (row : List (String × String)) : String :=
  " • " ++ String.intercalate ", "
    (row.map (fun kv => underscoreToSpace kv.1 ++ ": " ++ kv.2))

/-- `T2SQLAnswerFormatter.format` (src/agents/langgraph_agent.py
lines 151-179). -/
def T2SQLAnswerFormatter.format (question : String) (result : TextToSQLResult) : String :=
  match result.rows with
  | [] => "I could not find results for '" ++ question ++ "'."
  | [[(key, value)]] =>
      let message := "The " ++ underscoreToSpace key ++ " is " ++ value
      let qualifiers := t2sqlQualifiers question
      let message :=
        if qualifiers = [] then message
        else message ++ " " ++ String.intercalate " " qualifiers
      message.trimRight ++ "."
  | rows =>
      let lines := (rows.take 5).map bulletLine
      let summary := String.intercalate "\n" lines
      if rows.length > 5 then
        summary ++ "\nShowing first 5 of " ++ toString rows.length ++ " records."
      else summary

theorem routerDecide_total (query : String) (llmReply : Option String) :
    QueryRouter.decide query llmReply = "t2sql" ∨ QueryRouter.decide query llmReply = "rag" := by
  cases llmReply <;> simp only [QueryRouter.decide, routerFallback] <;>
    repeat' first | (left; rfl) | (right; rfl) | split

/-- C1: `QueryRouter.decide` returns exactly one of `"t2sql"` and `"rag"`:
`"t2sql"` when the stripped, lowercased LLM reply contains `"sql"`, else
`"rag"` when it contains `"rag"`; and when the LLM call raises or the reply
contains neither substring, it returns `"t2sql"` exactly when the lowercased
query contains one of the thirteen SQL keywords, else `"rag"`. -/
theorem C1_query_router_decide (query : String) (llmReply : Option String) :
    (QueryRouter.decide query llmReply = "t2sql" ∨ QueryRouter.decide query llmReply = "rag")
    ∧ QueryRouter.decide query llmReply =
        (match llmReply with
         | some reply =>
             if strContainsSub reply.trim.toLower "sql" then "t2sql"
             else if strContainsSub reply.trim.toLower "rag" then "rag"
             else if sqlKeywords.any (fun k => strContainsSub query.toLower k)
                  then "t2sql" else "rag"
         | none =>
             if sqlKeywords.any (fun k => strContainsSub query.toLower k)
             then "t2sql" else "rag") := by
  refine ⟨routerDecide_total query llmReply, ?_⟩
  cases llmReply <;> rfl

/-- C2: `T2SQLAnswerFormatter.format` returns the fixed not-found sentence on
no rows; on exactly one row with exactly one column, a sentence built from
the column name (underscores replaced by spaces), the value and the question
qualifiers, right-stripped and terminated with a period; otherwise one bullet
line per row for the first 5 rows, with the "Showing first 5 of N records."
line appended exactly when the row count exceeds 5. -/
theorem C2_t2sql_formatter (question : String) (result : TextToSQLResult) :
    match result.rows with
    | [] =>
        T2SQLAnswerFormatter.format question result =
          "I could not find results for '" ++ question ++ "'."
    | [[(key, value)]] =>
        T2SQLAnswerFormatter.format question result =
          ("The " ++ underscoreToSpace key ++ " is " ++ value
            ++ (if t2sqlQualifiers question = [] then ""
                else " " ++ String.intercalate " " (t2sqlQualifiers question))).trimRight
          ++ "."
        ∧ ∃ body, T2SQLAnswerFormatter.format question result = body ++ "."
    | rows =>
        T2SQLAnswerFormatter.format question result =
          String.intercalate "\n" ((rows.take 5).map bulletLine)
          ++ (if rows.length > 5
              then "\nShowing first 5 of " ++ toString rows.length ++ " records."
              else "") := by
  obtain ⟨sql, rows, explanation⟩ := result
  rcases rows with _ | ⟨row, rest⟩
  · rfl
  rcases rest with _ | ⟨row2, rest2⟩
  · rcases row with _ | ⟨kv, kvs⟩
    · dsimp only [T2SQLAnswerFormatter.format]
      norm_num
    rcases kvs with _ | ⟨kv2, kvs2⟩
    · obtain ⟨key, value⟩ := kv
      dsimp only [T2SQLAnswerFormatter.format]
      constructor
      · by_cases hq : t2sqlQualifiers question = []
        · simp only [hq, if_pos, String.append_empty]
        · simp only [if_neg hq, String.append_assoc]
      · exact ⟨_, rfl⟩
    · dsimp only [T2SQLAnswerFormatter.format]
      norm_num
  · dsimp only [T2SQLAnswerFormatter.format]
    by_cases h5 : (row :: row2 :: rest2).length > 5
    · simp only [if_pos h5, String.append_assoc]
    · simp only [if_neg h5, String.append_empty]

/-- A value of the agent's response dictionary. -/
inductive RespValue where
  | str : String → RespValue
  | rowList : List (List (String × String)) → RespValue
  | strList : List String → RespValue
deriving DecidableEq

/-- `DocumentAnswer` (src/agents/langgraph_agent.py lines 89-93) without the
constant `route` field. -/
structure DocumentAnswer where
  answer : String
  sources : List String

/-- The observable outcome of one `LeadNurtureAgent.run` invocation: the
response dictionary (keys in insertion order) and which backend ran. -/
structure RunTrace where
  response : List (String × RespValue)
  t2sqlInvoked : Bool
  ragInvoked : Bool

/-- `LeadNurtureAgent.run` (src/agents/langgraph_agent.py lines 196-267):
the router node stores its decision in the state, the conditional edge
dispatches on it, and exactly one of `_answer_sql` / `_answer_rag` builds the
response. The backends' external results are inputs (`t2sqlResult` the
Text-to-SQL service's answer, `ragAnswer` the RAG tool's); lead and campaign
are assumed to resolve, as the claim requires. -/
def LeadNurtureAgent.run (query : String) (llmReply : Option String)
    (t2sqlResult : TextToSQLResult) (ragAnswer : DocumentAnswer) : RunTrace :=
  let route := QueryRouter.decide query llmReply
  if route = "t2sql" then
    { response :=
        [("route", RespValue.str "t2sql"),
         ("sql", RespValue.str t2sqlResult.sql),
         ("rows", RespValue.rowList t2sqlResult.rows),
         ("explanation", RespValue.str t2sqlResult.explanation),
         ("message", RespValue.str (T2SQLAnswerFormatter.format query t2sqlResult))],
      t2sqlInvoked := true,
      ragInvoked := false }
  else
    { response :=
        [("route", RespValue.str "rag"),
         ("answer", RespValue.str ragAnswer.answer),
         ("sources", RespValue.strList ragAnswer.sources)],
      t2sqlInvoked := false,
      ragInvoked := true }

/-- C3: the response dictionary of `LeadNurtureAgent.run` has its "route"
entry equal to the router's decision; its keys are exactly
route, sql, rows, explanation, message when the decision is "t2sql" and
exactly route, answer, sources when it is "rag"; exactly one backend is
invoked, the Text-to-SQL one precisely on decision "t2sql". -/
theorem C3_agent_run_dispatch (query : String) (llmReply : Option String)
    (t2sqlResult : TextToSQLResult) (ragAnswer : DocumentAnswer) :
    List.lookup "route" (LeadNurtureAgent.run query llmReply t2sqlResult ragAnswer).response
      = some (RespValue.str (QueryRouter.decide query llmReply))
    ∧ (LeadNurtureAgent.run query llmReply t2sqlResult ragAnswer).response.map Prod.fst
      = (if QueryRouter.decide query llmReply = "t2sql"
         then ["route", "sql", "rows", "explanation", "message"]
         else ["route", "answer", "sources"])
    ∧ ¬((LeadNurtureAgent.run query llmReply t2sqlResult ragAnswer).t2sqlInvoked = true
        ∧ (LeadNurtureAgent.run query llmReply t2sqlResult ragAnswer).ragInvoked = true)
    ∧ ((LeadNurtureAgent.run query llmReply t2sqlResult ragAnswer).t2sqlInvoked = true
        ↔ QueryRouter.decide query llmReply = "t2sql")
    ∧ ((LeadNurtureAgent.run query llmReply t2sqlResult ragAnswer).ragInvoked = true
        ↔ QueryRouter.decide query llmReply = "rag") := by
  by_cases h : QueryRouter.decide query llmReply = "t2sql"
  · simp [LeadNurtureAgent.run, h, List.lookup]
  · have hrag : QueryRouter.decide query llmReply = "rag" :=
      (routerDecide_total query llmReply).resolve_left h
    simp [LeadNurtureAgent.run, h, hrag, List.lookup]

/-- `CampaignLead` (src/campaigns/models.py lines 69-102). Timestamps are
naturals, nullable datetimes are `Option Nat`; status and goal outcome are the
TextChoices values as strings. -/
structure CampaignLeadRec where
  campaignId : Nat
  leadId : Nat
  shortlistedAt : Nat
  personalizedMessage : String
  dispatchTime : Option Nat
  status : String
  goalOutcome : String
  scheduledDatetime : Option Nat
  lastCustomerMessageAt : Option Nat
  lastAgentMessageAt : Option Nat
  updatedAt : Nat
deriving DecidableEq

/-- `CampaignLead.mark_responded` (src/campaigns/models.py lines 91-95):
sets status to "responded" unless it is "goal_met", stamps
`last_customer_message_at` with the current time, and saves exactly
status, last_customer_message_at and updated_at (`updated_at` is auto_now). -/
def CampaignLead.mark_responded (cl : CampaignLeadRec) (now : Nat) : CampaignLeadRec :=
  { cl with
    status := if cl.status ≠ "goal_met" then "responded" else cl.status,
    lastCustomerMessageAt := some now,
    updatedAt := now }

/-- A CampaignLead whose nurture goal has been met (as `mark_goal` leaves it,
src/campaigns/models.py lines 97-102). -/
def goalMetLead : CampaignLeadRec :=
  { campaignId := 1, leadId := 1, shortlistedAt := 0, personalizedMessage := "hello",
    dispatchTime := some 1, status := "goal_met", goalOutcome := "visit",
    scheduledDatetime := some 5, lastCustomerMessageAt := none,
    lastAgentMessageAt := some 2, updatedAt := 2 }

/-- C4 counterexample: `CampaignLead.mark_responded` is not an unconstrained
CRUD update — on a record whose status is "goal_met" it enforces, in
application code, the condition that the status keeps its value instead of
becoming "responded". -/
theorem C4_counterexample_mark_responded_conditional :
    (CampaignLead.mark_responded goalMetLead 3).status ≠ "responded"
    ∧ (CampaignLead.mark_responded goalMetLead 3).status = "goal_met" := by
  constructor <;> decide

/-- C4 (amended): the persistent entities carry no invariant beyond
foreign-key and uniqueness constraints except that application code does
enforce one condition on `CampaignLead` status updates:
`mark_responded` overwrites the status with "responded" exactly when the
record has not already reached "goal_met", so the "goal_met" status is
preserved by that operation. -/
theorem C4_mark_responded_guard (cl : CampaignLeadRec) (now : Nat) :
    ((CampaignLead.mark_responded cl now).status = "responded" ↔ cl.status ≠ "goal_met")
    ∧ (cl.status = "goal_met" → (CampaignLead.mark_responded cl now).status = "goal_met") := by
  unfold CampaignLead.mark_responded
  by_cases h : cl.status = "goal_met" <;> simp [h]

/-- C9: `mark_responded` sets status to "responded" unless the current status
is "goal_met", which it leaves unchanged; it stamps
`last_customer_message_at` and `updated_at` with the save time and modifies
no other field. -/
theorem C9_mark_responded_frame (cl : CampaignLeadRec) (now : Nat) :
    (CampaignLead.mark_responded cl now).status
      = (if cl.status = "goal_met" then "goal_met" else "responded")
    ∧ (CampaignLead.mark_responded cl now).lastCustomerMessageAt = some now
    ∧ (CampaignLead.mark_responded cl now).updatedAt = now
    ∧ (CampaignLead.mark_responded cl now).campaignId = cl.campaignId
    ∧ (CampaignLead.mark_responded cl now).leadId = cl.leadId
    ∧ (CampaignLead.mark_responded cl now).shortlistedAt = cl.shortlistedAt
    ∧ (CampaignLead.mark_responded cl now).personalizedMessage = cl.personalizedMessage
    ∧ (CampaignLead.mark_responded cl now).dispatchTime = cl.dispatchTime
    ∧ (CampaignLead.mark_responded cl now).goalOutcome = cl.goalOutcome
    ∧ (CampaignLead.mark_responded cl now).scheduledDatetime = cl.scheduledDatetime
    ∧ (CampaignLead.mark_responded cl now).lastAgentMessageAt = cl.lastAgentMessageAt := by
  unfold CampaignLead.mark_responded
  by_cases h : cl.status = "goal_met" <;> simp [h]

/-- `IngestionOutcome` (src/agents/ingestion.py lines 19-22). -/
structure IngestionOutcome where
  chunksIndexed : Nat
  collectionName : String
deriving DecidableEq

/-- The part of `BrochureDocument` (src/agents/models.py) that ingestion
reads: `projectName = ""` models a blank project. -/
structure BrochureRec where
  id : Nat
  projectName : String
  fileName : String

/-- One `DocumentIngestionLog` row as `ingest` creates it. -/
structure IngestLogRec where
  documentId : Nat
  status : String
  chunksIndexed : Nat
deriving DecidableEq

/-- The external world `DocumentIngestionService.ingest` runs against: the
loader's result, the splitter, and the three vector-store calls, each able
to raise (`Except.error` carries the exception text). -/
structure IngestEnv where
  loadedDocs : Except String (List String)
  split : List String → List String
  deleteRes : Except String Unit
  addRes : Except String Unit
  persistRes : Except String Unit

/-- Database state written by one `ingest` call: the ingestion-log rows it
creates, whether it called `brochure.mark_indexed()`, and how many chunks
it added to the vector store. -/
structure IngestState where
  logs : List IngestLogRec
  markedIndexed : Bool
  addedChunks : Nat
deriving DecidableEq

/-- `DocumentIngestionService._collection_name`
(src/agents/ingestion.py lines 35-39). -/
def collectionNameFor (projectName : String) : String :=
  if projectName ≠ "" then
    "project_" ++ (projectName.toLower.replace " " "_")
  else "projects"

/-- The exception the `try` block of `ingest` raises, if any: the first
failing step, in the code's order load → delete → add → persist. -/
def firstFailure (env : IngestEnv) : Option String :=
  match env.loadedDocs with
  | Except.error e => some e
  | Except.ok _ =>
    match env.deleteRes with
    | Except.error e => some e
    | Except.ok _ =>
      match env.addRes with
      | Except.error e => some e
      | Except.ok _ =>
        match env.persistRes with
        | Except.error e => some e
        | Except.ok _ => none

/-- `DocumentIngestionService.ingest` (src/agents/ingestion.py lines 49-87):
load, split, target collection, delete stale chunks, add the new ones,
persist, mark the brochure indexed and write a "completed" log; any raise in
the try block writes one "failed" log with 0 chunks and re-raises. -/
def DocumentIngestionService.ingest (env : IngestEnv) (brochure : BrochureRec) :
    Except String IngestionOutcome × IngestState :=
  let failState : IngestState :=
    { logs := [{ documentId := brochure.id, status := "failed", chunksIndexed := 0 }],
      markedIndexed := false, addedChunks := 0 }
  match env.loadedDocs with
  | Except.error e => (Except.error e, failState)
  | Except.ok docs =>
    let chunks := env.split docs
    let collectionName := collectionNameFor brochure.projectName
    match env.deleteRes with
    | Except.error e => (Except.error e, failState)
    | Except.ok _ =>
      match env.addRes with
      | Except.error e => (Except.error e, failState)
      | Except.ok _ =>
        match env.persistRes with
        | Except.error e => (Except.error e, failState)
        | Except.ok _ =>
          (Except.ok { chunksIndexed := chunks.length, collectionName := collectionName },
           { logs := [{ documentId := brochure.id, status := "completed",
                        chunksIndexed := chunks.length }],
             markedIndexed := true, addedChunks := chunks.length })

/-- C5: on success `ingest` writes exactly one "completed" log whose
chunk count equals the number of chunks added to the vector store, marks the
brochure indexed, and returns that same count with the collection name
derived from the project name; on any exception it writes exactly one
"failed" log with 0 chunks, does not mark the brochure indexed, and
re-raises the original exception. -/
theorem C5_ingest_logs_and_outcome (env : IngestEnv) (brochure : BrochureRec) :
    match DocumentIngestionService.ingest env brochure with
    | (Except.ok outcome, st) =>
        st.logs = [{ documentId := brochure.id, status := "completed",
                     chunksIndexed := st.addedChunks }]
        ∧ outcome.chunksIndexed = st.addedChunks
        ∧ st.markedIndexed = true
        ∧ outcome.collectionName = collectionNameFor brochure.projectName
        ∧ firstFailure env = none
    | (Except.error e, st) =>
        st.logs = [{ documentId := brochure.id, status := "failed", chunksIndexed := 0 }]
        ∧ st.markedIndexed = false
        ∧ st.addedChunks = 0
        ∧ firstFailure env = some e := by
  obtain ⟨docs, split, del, add, persist⟩ := env
  rcases docs with e | docs <;> rcases del with e₁ | _ <;> rcases add with e₂ | _ <;>
    rcases persist with e₃ | _ <;>
    simp [DocumentIngestionService.ingest, firstFailure]

theorem startsWithL_append (n b : List Char) : startsWithL n (n ++ b) = true := by
  induction n with
  | nil => rfl
  | cons a as ih => simp [startsWithL, ih]

theorem containsSubL_append (a n b : List Char) :
    containsSubL n (a ++ (n ++ b)) = true := by
  induction a with
  | nil =>
    rw [List.nil_append]
    cases hnb : n ++ b with
    | nil =>
      obtain ⟨hn, hb⟩ := List.append_eq_nil.mp hnb
      subst hn
      subst hb
      rfl
    | cons c cs =>
      simp only [containsSubL]
      rw [← hnb, startsWithL_append, Bool.true_or]
  | cons x xs ih =>
    rw [List.cons_append]
    simp only [containsSubL]
    simp [ih]

theorem strContainsSub_append (a n b : String) :
    strContainsSub (a ++ n ++ b) n = true := by
  unfold strContainsSub
  rw [String.data_append, String.data_append, List.append_assoc]
  exact containsSubL_append a.data n.data b.data

/-- One uploaded file as the `upload_documents` endpoint sees it: its name,
what `store_upload` does on it, and what `ingest` then does. -/
structure UploadFile where
  name : String
  storeRes : Except String BrochureRec
  ingestRes : Except String IngestionOutcome

/-- `DocumentUploadResponse` (src/agents/schemas.py) as the endpoint fills it. -/
structure DocumentUploadResponse where
  documentId : Nat
  projectName : String
  chunksIndexed : Nat
  collectionName : String

/-- The per-file body of the loop of `upload_documents`
(src/agents/api.py lines 23-42): store then ingest; any exception becomes
an HTTP 400 whose message names the file. -/
def processFile (f : UploadFile) : Except (Nat × String) DocumentUploadResponse :=
  match f.storeRes with
  | Except.error e => Except.error (400, "Failed to ingest " ++ f.name ++ ": " ++ e)
  | Except.ok brochure =>
    match f.ingestRes with
    | Except.error e => Except.error (400, "Failed to ingest " ++ f.name ++ ": " ++ e)
    | Except.ok outcome =>
      Except.ok { documentId := brochure.id, projectName := brochure.projectName,
                  chunksIndexed := outcome.chunksIndexed,
                  collectionName := outcome.collectionName }

/-- `upload_documents` (src/agents/api.py lines 19-43): processes the files
in upload order; the first exception aborts the request with the HTTP error
and no response list, while the files already processed stay ingested (the
second component lists their names — there is no cross-file rollback). -/
def upload_documents : List UploadFile → Except (Nat × String) (List DocumentUploadResponse) × List String
  | [] => (Except.ok [], [])
  | f :: rest =>
    match processFile f with
    | Except.error err => (Except.error err, [])
    | Except.ok resp =>
      match upload_documents rest with
      | (Except.error err, ingested) => (Except.error err, f.name :: ingested)
      | (Except.ok resps, ingested) => (Except.ok (resp :: resps), f.name :: ingested)

/-- C6: when storing or ingesting file `f` raises after the files of `pre`
all succeeded, `upload_documents (pre ++ f :: post)` raises HTTP 400 with a
message naming `f`, produces no response entries, and exactly the files of
`pre` remain ingested; and on a request whose files all succeed it returns
one response per file, in upload order. -/
theorem C6_upload_documents_errors (pre post : List UploadFile) (f : UploadFile)
    (err : Nat × String)
    (hpre : ∀ g ∈ pre, ∃ r, processFile g = Except.ok r)
    (hf : processFile f = Except.error err) :
    (upload_documents (pre ++ f :: post)
        = (Except.error err, pre.map UploadFile.name)
      ∧ err.1 = 400 ∧ strContainsSub err.2 f.name = true)
    ∧ ∃ resps, upload_documents pre = (Except.ok resps, pre.map UploadFile.name)
        ∧ List.Forall₂ (fun g r => processFile g = Except.ok r) pre resps := by
  have herr : err.1 = 400 ∧ strContainsSub err.2 f.name = true := by
    revert hf
    unfold processFile
    rcases f.storeRes with e | b
    · intro hf
      cases hf
      refine ⟨rfl, ?_⟩
      have h := strContainsSub_append "Failed to ingest " f.name (": " ++ e)
      simpa [String.append_assoc] using h
    · rcases f.ingestRes with e | o
      · intro hf
        cases hf
        refine ⟨rfl, ?_⟩
        have h := strContainsSub_append "Failed to ingest " f.name (": " ++ e)
        simpa [String.append_assoc] using h
      · intro hf
        cases hf
  refine ⟨⟨?_, herr⟩, ?_⟩
  · induction pre with
    | nil => simp [upload_documents, hf]
    | cons g gs ih =>
      obtain ⟨r, hr⟩ := hpre g (List.mem_cons_self g gs)
      have ih' := ih (fun x hx => hpre x (List.mem_cons_of_mem g hx))
      simp [upload_documents, hr, ih']
  · induction pre with
    | nil => exact ⟨[], rfl, List.Forall₂.nil⟩
    | cons g gs ih =>
      obtain ⟨r, hr⟩ := hpre g (List.mem_cons_self g gs)
      obtain ⟨resps, hu, hall⟩ := ih (fun x hx => hpre x (List.mem_cons_of_mem g hx))
      exact ⟨r :: resps, by simp [upload_documents, hr, hu], List.Forall₂.cons hr hall⟩

/-- C6 witness: a concrete two-file request where the first file succeeds
and the second raises while ingesting. -/
theorem C6_upload_documents_errors_witness :
    (upload_documents
        ([{ name := "a.pdf", storeRes := Except.ok { id := 1, projectName := "Altura", fileName := "a.pdf" },
            ingestRes := Except.ok { chunksIndexed := 2, collectionName := "project_altura" } }]
          ++ { name := "b.pdf",
               storeRes := Except.ok { id := 2, projectName := "", fileName := "b.pdf" },
               ingestRes := Except.error "boom" } :: [])
        = (Except.error (400, "Failed to ingest b.pdf: boom"), ["a.pdf"])
      ∧ (400, "Failed to ingest b.pdf: boom").1 = 400
      ∧ strContainsSub (400, "Failed to ingest b.pdf: boom").2 "b.pdf" = true)
    ∧ ∃ resps,
        upload_documents
          [{ name := "a.pdf", storeRes := Except.ok { id := 1, projectName := "Altura", fileName := "a.pdf" },
             ingestRes := Except.ok { chunksIndexed := 2, collectionName := "project_altura" } }]
          = (Except.ok resps, ["a.pdf"])
        ∧ List.Forall₂ (fun g r => processFile g = Except.ok r)
            [{ name := "a.pdf", storeRes := Except.ok { id := 1, projectName := "Altura", fileName := "a.pdf" },
               ingestRes := Except.ok { chunksIndexed := 2, collectionName := "project_altura" } }] resps := by
  exact C6_upload_documents_errors _ _ _ _
    (by intro g hg; rw [List.mem_singleton] at hg; subst hg; exact ⟨_, rfl⟩)
    rfl

/-- The part of `Lead` (src/crm/models.py) that campaign creation uses. -/
structure LeadRec where
  id : Nat
  firstName : String
deriving DecidableEq

/-- `CampaignCreateRequest` (src/campaigns/schemas.py) as `create_campaign`
reads it. -/
structure CampaignCreateRequest where
  name : String
  projectName : String
  messageChannel : String
  offerDetails : Option String
  leadIds : List Nat

/-- A created `Campaign` row. -/
structure CampaignRec where
  name : String
  projectName : String
  messageChannel : String
  offerDetails : String
  createdById : Nat
deriving DecidableEq

/-- A created `CampaignLead` row, as `_create_campaign_lead` writes it. -/
structure CampaignLeadCreated where
  leadId : Nat
  personalizedMessage : String
  status : String
  dispatchTime : Option Nat
deriving DecidableEq

/-- A created `ConversationMessage` row. -/
structure ConversationMessageRec where
  leadId : Nat
  sender : String
  message : String
deriving DecidableEq

/-- Everything one `create_campaign` transaction writes. -/
structure CampaignCreationRecords where
  campaigns : List CampaignRec
  campaignLeads : List CampaignLeadCreated
  conversationMessages : List ConversationMessageRec

/-- The `Campaign.objects.create` call of `create_campaign`
(src/campaigns/services.py lines 65-72); Python's `offer_details or ""`
collapses both `None` and `""` to `""`. -/
def mkCampaign (userId : Nat) (payload : CampaignCreateRequest) : CampaignRec :=
  { name := payload.name, projectName := payload.projectName,
    messageChannel := payload.messageChannel,
    offerDetails := payload.offerDetails.getD "",
    createdById := userId }

/-- `list(Lead.objects.filter(id__in=payload.lead_ids))`. -/
def requestedLeads (existing : List LeadRec) (payload : CampaignCreateRequest) : List LeadRec :=
  existing.filter (fun l => payload.leadIds.contains l.id)

/-- The email-related Django settings `_dispatch_email` reads
(src/campaigns/services.py lines 101-163): the recipient override
(`""` models an unset/blank `CAMPAIGN_EMAIL_OVERRIDE`, which is falsy),
whether `EMAIL_HOST_USER` / `EMAIL_HOST_PASSWORD` are set, and `DEBUG`. -/
structure EmailSettings where
  campaignEmailOverride : String
  emailHostUserSet : Bool
  emailHostPasswordSet : Bool
  debug : Bool

/-- The exceptions `create_campaign` can raise: the two ValidationError
paths, a raise from the LLM message generator, `ImproperlyConfigured` from
`_dispatch_email`, and a re-raised `send_mail` failure. -/
inductive CampaignCreateError where
  | validationError : String → CampaignCreateError
  | messageGenerationError : String → CampaignCreateError
  | improperlyConfigured : String → CampaignCreateError
  | emailSendError : String → CampaignCreateError
deriving DecidableEq

/-- `CampaignService._dispatch_email` (src/campaigns/services.py
lines 101-163): raises `ImproperlyConfigured` when the recipient override is
unset; silently skips dispatch when the SMTP credentials are missing;
otherwise sends, and on a `send_mail` exception re-raises unless `DEBUG` is
true (then it logs and continues). `sendMail` is the external SMTP call. -/
def CampaignService.dispatch_email (settings : EmailSettings)
    (sendMail : LeadRec → Except String Unit) (lead : LeadRec) :
    Except CampaignCreateError Unit :=
  if settings.campaignEmailOverride = "" then
    Except.error (CampaignCreateError.improperlyConfigured
      "CAMPAIGN_EMAIL_OVERRIDE must be set to route nurture emails to your test inbox.")
  else if !settings.emailHostUserSet || !settings.emailHostPasswordSet then
    Except.ok ()
  else
    match sendMail lead with
    | Except.ok _ => Except.ok ()
    | Except.error e =>
      if settings.debug then Except.ok ()
      else Except.error (CampaignCreateError.emailSendError e)

/-- The per-lead loop of `create_campaign` with `_create_campaign_lead`
(src/campaigns/services.py lines 74-99): for each lead, generate the
personalized message (`gen`, the external LLM call, which can raise), create
the CampaignLead (status "sent", dispatch time now) and the agent
ConversationMessage with the same body, then `_dispatch_email`; the first
raise aborts the whole loop. -/
def createLeadRows (campaign : CampaignRec)
    (gen : CampaignRec → LeadRec → Except String String)
    (settings : EmailSettings) (sendMail : LeadRec → Except String Unit) (now : Nat) :
    List LeadRec →
      Except CampaignCreateError (List CampaignLeadCreated × List ConversationMessageRec)
  | [] => Except.ok ([], [])
  | l :: rest =>
    match gen campaign l with
    | Except.error e => Except.error (CampaignCreateError.messageGenerationError e)
    | Except.ok body =>
      match CampaignService.dispatch_email settings sendMail l with
      | Except.error e => Except.error e
      | Except.ok _ =>
        match createLeadRows campaign gen settings sendMail now rest with
        | Except.error e => Except.error e
        | Except.ok (cls, msgs) =>
          Except.ok
            ({ leadId := l.id, personalizedMessage := body,
               status := "sent", dispatchTime := some now } :: cls,
             { leadId := l.id, sender := "agent", message := body } :: msgs)

/-- `set(payload.lead_ids) - {lead.id for lead in leads}`
(src/campaigns/services.py line 61), as the requested ids with no fetched
lead. -/
def missingLeadIds (existing : List LeadRec) (payload : CampaignCreateRequest) : List Nat :=
  payload.leadIds.filter
    (fun i => !(((requestedLeads existing payload).map LeadRec.id).contains i))

theorem missingLeadIds_ne_nil_iff (existing : List LeadRec)
    (payload : CampaignCreateRequest) :
    missingLeadIds existing payload ≠ []
      ↔ ∃ i ∈ payload.leadIds, ∀ l ∈ existing, l.id ≠ i := by
  rw [missingLeadIds, Ne, List.filter_eq_nil_iff]
  push_neg
  unfold requestedLeads
  constructor
  · rintro ⟨i, hi, hp⟩
    refine ⟨i, hi, fun l hl hid => ?_⟩
    simp at hp
    exact hp l hl (hid ▸ hi) hid
  · rintro ⟨i, hi, hall⟩
    refine ⟨i, hi, ?_⟩
    simp
    intro l hl _
    exact hall l hl

/-- `CampaignService.create_campaign` (src/campaigns/services.py
lines 55-99): validate the lead ids, create the Campaign, then run the
per-lead loop — whose message generation and email dispatch can raise.
The method runs under `@transaction.atomic`, so any raise is an
`Except.error` and the transaction commits nothing. -/
def CampaignService.create_campaign (existing : List LeadRec) (userId : Nat)
    (payload : CampaignCreateRequest) (gen : CampaignRec → LeadRec → Except String String)
    (settings : EmailSettings) (sendMail : LeadRec → Except String Unit) (now : Nat) :
    Except CampaignCreateError CampaignCreationRecords :=
  if payload.leadIds = [] then
    Except.error (CampaignCreateError.validationError
      "Select at least one lead to create a campaign.")
  else if missingLeadIds existing payload ≠ [] then
    Except.error (CampaignCreateError.validationError
      ("Lead IDs not found: "
        ++ String.intercalate ", " ((missingLeadIds existing payload).map toString)))
  else
    match createLeadRows (mkCampaign userId payload) gen settings sendMail now
        (requestedLeads existing payload) with
    | Except.error e => Except.error e
    | Except.ok (cls, msgs) =>
      Except.ok { campaigns := [mkCampaign userId payload], campaignLeads := cls,
                  conversationMessages := msgs }

theorem dispatch_email_no_validation (settings : EmailSettings)
    (sendMail : LeadRec → Except String Unit) (lead : LeadRec) (e : String) :
    CampaignService.dispatch_email settings sendMail lead
      ≠ Except.error (CampaignCreateError.validationError e) := by
  unfold CampaignService.dispatch_email
  repeat' split
  all_goals simp

theorem createLeadRows_no_validation (campaign : CampaignRec)
    (gen : CampaignRec → LeadRec → Except String String) (settings : EmailSettings)
    (sendMail : LeadRec → Except String Unit) (now : Nat) (leads : List LeadRec)
    (e : String) :
    createLeadRows campaign gen settings sendMail now leads
      ≠ Except.error (CampaignCreateError.validationError e) := by
  induction leads with
  | nil => simp [createLeadRows]
  | cons l rest ih =>
    simp only [createLeadRows]
    rcases hg : gen campaign l with ge | body
    · simp
    rcases hd : CampaignService.dispatch_email settings sendMail l with de | u
    · intro h
      injection h with h
      subst h
      exact dispatch_email_no_validation settings sendMail l e hd
    rcases hr : createLeadRows campaign gen settings sendMail now rest with ce | ⟨cls, msgs⟩
    · intro h
      injection h with h
      subst h
      exact ih hr
    · simp

theorem createLeadRows_ok_iff (campaign : CampaignRec)
    (gen : CampaignRec → LeadRec → Except String String) (settings : EmailSettings)
    (sendMail : LeadRec → Except String Unit) (now : Nat) (leads : List LeadRec) :
    (∃ out, createLeadRows campaign gen settings sendMail now leads = Except.ok out)
      ↔ ∀ l ∈ leads, (∃ body, gen campaign l = Except.ok body)
          ∧ CampaignService.dispatch_email settings sendMail l = Except.ok () := by
  induction leads with
  | nil => simp [createLeadRows]
  | cons l rest ih =>
    simp only [createLeadRows, List.mem_cons]
    constructor
    · rintro ⟨out, hout⟩
      rcases hg : gen campaign l with ge | body <;> rw [hg] at hout
      · cases hout
      rcases hd : CampaignService.dispatch_email settings sendMail l with de | u <;>
        rw [hd] at hout
      · cases hout
      rcases hr : createLeadRows campaign gen settings sendMail now rest with ce | pair <;>
        rw [hr] at hout
      · cases hout
      intro x hx
      rcases hx with rfl | hx
      · exact ⟨⟨body, hg⟩, by rw [hd]⟩
      · exact (ih.mp ⟨pair, hr⟩) x hx
    · intro hall
      obtain ⟨⟨body, hg⟩, hd⟩ := hall l (Or.inl rfl)
      obtain ⟨⟨cls, msgs⟩, hr⟩ := ih.mpr (fun x hx => hall x (Or.inr hx))
      exact ⟨_, by rw [hg, hd, hr]⟩

theorem createLeadRows_ok_spec (campaign : CampaignRec)
    (gen : CampaignRec → LeadRec → Except String String) (settings : EmailSettings)
    (sendMail : LeadRec → Except String Unit) (now : Nat) (leads : List LeadRec)
    (cls : List CampaignLeadCreated) (msgs : List ConversationMessageRec)
    (h : createLeadRows campaign gen settings sendMail now leads = Except.ok (cls, msgs)) :
    cls.map CampaignLeadCreated.leadId = leads.map LeadRec.id
    ∧ (∀ cl ∈ cls, cl.status = "sent" ∧ cl.dispatchTime = some now)
    ∧ List.Forall₂ (fun l cl => gen campaign l = Except.ok cl.personalizedMessage) leads cls
    ∧ List.Forall₂
        (fun cl m => m.sender = "agent" ∧ m.message = cl.personalizedMessage
          ∧ m.leadId = cl.leadId) cls msgs := by
  induction leads generalizing cls msgs with
  | nil =>
    simp only [createLeadRows] at h
    injection h with h
    injection h with h1 h2
    subst h1; subst h2
    exact ⟨rfl, by simp, List.Forall₂.nil, List.Forall₂.nil⟩
  | cons l rest ih =>
    simp only [createLeadRows] at h
    rcases hg : gen campaign l with ge | body <;> rw [hg] at h
    · cases h
    rcases hd : CampaignService.dispatch_email settings sendMail l with de | u <;>
      rw [hd] at h
    · cases h
    rcases hr : createLeadRows campaign gen settings sendMail now rest with ce | ⟨cls', msgs'⟩ <;>
      rw [hr] at h
    · cases h
    injection h with h
    injection h with h1 h2
    subst h1; subst h2
    obtain ⟨ha, hb, hc, hdd⟩ := ih cls' msgs' hr
    refine ⟨by simp [ha], ?_, List.Forall₂.cons hg hc,
      List.Forall₂.cons ⟨rfl, rfl, rfl⟩ hdd⟩
    intro cl hcl
    rcases List.mem_cons.mp hcl with rfl | hcl
    · exact ⟨rfl, rfl⟩
    · exact hb cl hcl

/-- C7 (amended): `create_campaign` raises ValidationError — atomically
writing no Campaign, CampaignLead or ConversationMessage — exactly when the
payload has no lead ids or references a lead id with no existing Lead; a run
that returns creates exactly one Campaign and, per requested lead, exactly
one CampaignLead with status "sent", a non-null dispatch time and the
generated personalized message, paired with exactly one ConversationMessage
from sender "agent" carrying the same body; and it returns (rather than
raising and rolling everything back) precisely when validation passes and,
for every requested lead, message generation and email dispatch raise no
exception. -/
theorem C7_create_campaign_atomic (existing : List LeadRec) (userId : Nat)
    (payload : CampaignCreateRequest) (gen : CampaignRec → LeadRec → Except String String)
    (settings : EmailSettings) (sendMail : LeadRec → Except String Unit) (now : Nat) :
    ((∃ e, CampaignService.create_campaign existing userId payload gen settings sendMail now
          = Except.error (CampaignCreateError.validationError e))
       ↔ payload.leadIds = [] ∨ ∃ i ∈ payload.leadIds, ∀ l ∈ existing, l.id ≠ i)
    ∧ (∀ recs, CampaignService.create_campaign existing userId payload gen settings sendMail now
          = Except.ok recs →
        recs.campaigns = [mkCampaign userId payload]
        ∧ recs.campaignLeads.map CampaignLeadCreated.leadId
            = (requestedLeads existing payload).map LeadRec.id
        ∧ (∀ cl ∈ recs.campaignLeads, cl.status = "sent" ∧ cl.dispatchTime = some now)
        ∧ List.Forall₂
            (fun l cl => gen (mkCampaign userId payload) l = Except.ok cl.personalizedMessage)
            (requestedLeads existing payload) recs.campaignLeads
        ∧ List.Forall₂
            (fun cl m => m.sender = "agent" ∧ m.message = cl.personalizedMessage
              ∧ m.leadId = cl.leadId)
            recs.campaignLeads recs.conversationMessages)
    ∧ ((∃ recs, CampaignService.create_campaign existing userId payload gen settings sendMail now
          = Except.ok recs)
       ↔ (payload.leadIds ≠ []
          ∧ (∀ i ∈ payload.leadIds, ∃ l ∈ existing, l.id = i)
          ∧ ∀ l ∈ requestedLeads existing payload,
              (∃ body, gen (mkCampaign userId payload) l = Except.ok body)
              ∧ CampaignService.dispatch_email settings sendMail l = Except.ok ())) := by
  by_cases h0 : payload.leadIds = []
  · refine ⟨?_, ?_, ?_⟩
    · simp [CampaignService.create_campaign, h0]
    · intro recs h
      rw [CampaignService.create_campaign, if_pos h0] at h
      cases h
    · constructor
      · rintro ⟨recs, h⟩
        rw [CampaignService.create_campaign, if_pos h0] at h
        cases h
      · rintro ⟨hne, _⟩
        exact absurd h0 hne
  by_cases hm : missingLeadIds existing payload = []
  · have hcond : ¬(missingLeadIds existing payload ≠ []) := fun hh => hh hm
    have hnomiss : ¬ ∃ i ∈ payload.leadIds, ∀ l ∈ existing, l.id ≠ i :=
      fun hc => hcond ((missingLeadIds_ne_nil_iff existing payload).mpr hc)
    have hres : ∀ i ∈ payload.leadIds, ∃ l ∈ existing, l.id = i := by
      push_neg at hnomiss
      exact hnomiss
    refine ⟨?_, ?_, ?_⟩
    · rw [CampaignService.create_campaign, if_neg h0, if_neg hcond]
      constructor
      · rintro ⟨e, he⟩
        rcases hr : createLeadRows (mkCampaign userId payload) gen settings sendMail now
            (requestedLeads existing payload) with ce | ⟨cls, msgs⟩ <;> rw [hr] at he
        · injection he with he
          subst he
          exact absurd hr (createLeadRows_no_validation _ _ _ _ _ _ _)
        · cases he
      · rintro (h | h)
        · exact absurd h h0
        · exact absurd h hnomiss
    · intro recs h
      rw [CampaignService.create_campaign, if_neg h0, if_neg hcond] at h
      rcases hr : createLeadRows (mkCampaign userId payload) gen settings sendMail now
          (requestedLeads existing payload) with ce | ⟨cls, msgs⟩ <;> rw [hr] at h
      · cases h
      injection h with h
      subst h
      obtain ⟨ha, hb, hc, hd⟩ := createLeadRows_ok_spec _ _ _ _ _ _ _ _ hr
      exact ⟨rfl, ha, hb, hc, hd⟩
    · rw [CampaignService.create_campaign, if_neg h0, if_neg hcond]
      constructor
      · rintro ⟨recs, h⟩
        rcases hr : createLeadRows (mkCampaign userId payload) gen settings sendMail now
            (requestedLeads existing payload) with ce | ⟨cls, msgs⟩ <;> rw [hr] at h
        · cases h
        exact ⟨h0, hres,
          (createLeadRows_ok_iff _ _ _ _ _ _).mp ⟨(cls, msgs), hr⟩⟩
      · rintro ⟨_, _, hall⟩
        obtain ⟨⟨cls, msgs⟩, hr⟩ := (createLeadRows_ok_iff _ _ _ _ _ _).mpr hall
        rw [hr]
        exact ⟨_, rfl⟩
  · have hm' : missingLeadIds existing payload ≠ [] := hm
    have hmiss := (missingLeadIds_ne_nil_iff existing payload).mp hm'
    refine ⟨?_, ?_, ?_⟩
    · rw [CampaignService.create_campaign, if_neg h0, if_pos hm']
      exact ⟨fun _ => Or.inr hmiss, fun _ => ⟨_, rfl⟩⟩
    · intro recs h
      rw [CampaignService.create_campaign, if_neg h0, if_pos hm'] at h
      cases h
    · rw [CampaignService.create_campaign, if_neg h0, if_pos hm']
      constructor
      · rintro ⟨recs, h⟩
        cases h
      · rintro ⟨_, hall, _⟩
        obtain ⟨i, hi, hnone⟩ := hmiss
        obtain ⟨l, hl, hid⟩ := hall i hi
        exact absurd hid (hnone l hl)

/-- An existing lead referenced by the counterexample payload. -/
def c7Lead : LeadRec := { id := 1, firstName := "Asha" }

/-- A valid creation payload naming that lead. -/
def c7Payload : CampaignCreateRequest :=
  { name := "Spring launch", projectName := "Altura", messageChannel := "email",
    offerDetails := none, leadIds := [1] }

/-- Settings with `CAMPAIGN_EMAIL_OVERRIDE` unset and `DEBUG` false. -/
def c7NoOverrideSettings : EmailSettings :=
  { campaignEmailOverride := "", emailHostUserSet := true,
    emailHostPasswordSet := true, debug := false }

/-- C7 counterexample: with a non-empty payload whose every lead id exists,
`create_campaign` can still raise — here `_dispatch_email` raises
`ImproperlyConfigured` because `CAMPAIGN_EMAIL_OVERRIDE` is unset — and the
atomic transaction then creates nothing, contradicting the claim's
unconditional "otherwise it creates exactly one Campaign …" branch. -/
theorem C7_counterexample_dispatch_rollback :
    c7Payload.leadIds ≠ []
    ∧ (∀ i ∈ c7Payload.leadIds, ∃ l ∈ [c7Lead], l.id = i)
    ∧ CampaignService.create_campaign [c7Lead] 1 c7Payload
        (fun _ _ => Except.ok "Hello Asha") c7NoOverrideSettings
        (fun _ => Except.ok ()) 0
      = Except.error (CampaignCreateError.improperlyConfigured
          "CAMPAIGN_EMAIL_OVERRIDE must be set to route nurture emails to your test inbox.")
    ∧ (∀ recs, CampaignService.create_campaign [c7Lead] 1 c7Payload
          (fun _ _ => Except.ok "Hello Asha") c7NoOverrideSettings
          (fun _ => Except.ok ()) 0 ≠ Except.ok recs) := by
  refine ⟨by decide, by decide, rfl, ?_⟩
  intro recs h
  rw [show CampaignService.create_campaign [c7Lead] 1 c7Payload
        (fun _ _ => Except.ok "Hello Asha") c7NoOverrideSettings
        (fun _ => Except.ok ()) 0
      = Except.error (CampaignCreateError.improperlyConfigured
          "CAMPAIGN_EMAIL_OVERRIDE must be set to route nurture emails to your test inbox.")
      from rfl] at h
  cases h

/-- The columns of `Lead` (src/crm/models.py) that `LeadQuerySet.shortlist`
filters on; budgets are `Option Int` (`none` is SQL NULL), dates `Option Int`. -/
structure ShortlistLead where
  projectEnquired : String
  unitType : String
  status : String
  lastConversationDate : Option Int
  budgetMin : Option Int
  budgetMax : Option Int
deriving DecidableEq

/-- `LeadFilterRequest` (src/crm/schemas.py lines 39-58), which is also the
kwargs of `LeadQuerySet.shortlist`. -/
structure LeadFilterRequest where
  projectNames : List String
  budgetMin : Option Int
  budgetMax : Option Int
  unitTypes : List String
  leadStatus : Option String
  lastConversationFrom : Option Int
  lastConversationTo : Option Int

/-- The budget disjunction of `LeadQuerySet.shortlist` (src/crm/models.py
lines 60-69): both bounds NULL, or the SQL comparisons
`budget_min <= max_value AND budget_max >= min_value`, where a NULL operand
makes a comparison not-true and `max_value`/`min_value` default to
infinity/0 when not requested. -/
def budgetOverlap (l : ShortlistLead) (rmin rmax : Option Int) : Bool :=
  (l.budgetMin.isNone && l.budgetMax.isNone)
  || ((match l.budgetMin, rmax with
       | some v, some m => decide (v ≤ m)
       | some _, none => true
       | none, _ => false)
      && (match l.budgetMax with
          | some v => decide (rmin.getD 0 ≤ v)
          | none => false))

/-- The non-budget filters of `LeadQuerySet.shortlist` (src/crm/models.py
lines 45-58), each applied only when provided, conjoined as chained ORM
filters are. -/
def shortlistOtherFilters (p : LeadFilterRequest) (l : ShortlistLead) : Bool :=
  (p.projectNames.isEmpty || p.projectNames.contains l.projectEnquired)
  && (p.unitTypes.isEmpty || p.unitTypes.contains l.unitType)
  && (match p.leadStatus with
      | none => true
      | some s => l.status == s)
  && (match p.lastConversationFrom, l.lastConversationDate with
      | none, _ => true
      | some d, some ld => decide (d ≤ ld)
      | some _, none => false)
  && (match p.lastConversationTo, l.lastConversationDate with
      | none, _ => true
      | some d, some ld => decide (ld ≤ d)
      | some _, none => false)

/-- `LeadQuerySet.shortlist` (src/crm/models.py lines 40-71) as the
membership predicate of the resulting queryset: the budget clause is added
only when at least one budget bound is requested. -/
def LeadQuerySet.shortlist (p : LeadFilterRequest) (l : ShortlistLead) : Bool :=
  shortlistOtherFilters p l
  && (match p.budgetMin, p.budgetMax with
      | none, none => true
      | _, _ => budgetOverlap l p.budgetMin p.budgetMax)

/-- C8: when at least one budget bound is requested, a lead is shortlisted
iff it passes the other provided filters and either both its budget bounds
are NULL or its budget range overlaps the requested one (budget_min at most
the requested maximum — unconstrained when none is requested — and
budget_max at least the requested minimum, defaulting to 0); a lead with
exactly one NULL budget bound is always excluded. -/
theorem C8_shortlist_budget (p : LeadFilterRequest) (l : ShortlistLead)
    (hb : p.budgetMin ≠ none ∨ p.budgetMax ≠ none) :
    (LeadQuerySet.shortlist p l = true ↔
       shortlistOtherFilters p l = true
       ∧ ((l.budgetMin = none ∧ l.budgetMax = none)
          ∨ (∃ bmin bmax, l.budgetMin = some bmin ∧ l.budgetMax = some bmax
              ∧ (∀ m, p.budgetMax = some m → bmin ≤ m)
              ∧ p.budgetMin.getD 0 ≤ bmax)))
    ∧ (((l.budgetMin = none ∧ l.budgetMax ≠ none)
        ∨ (l.budgetMin ≠ none ∧ l.budgetMax = none))
       → LeadQuerySet.shortlist p l = false) := by
  obtain ⟨pn, pbm, pbx, ut, ls, cf, ct⟩ := p
  obtain ⟨pe, u, st, lcd, lbm, lbx⟩ := l
  refine ⟨?_, ?_⟩ <;>
    rcases pbm with _ | v <;> rcases pbx with _ | w <;>
      rcases lbm with _ | a <;> rcases lbx with _ | b <;>
        simp_all [LeadQuerySet.shortlist, budgetOverlap]

/-- C8 witness: requesting only a minimum budget of 100 excludes a lead whose
budget_min is NULL but whose budget_max is 500. -/
theorem C8_shortlist_budget_witness :
    LeadQuerySet.shortlist
      { projectNames := [], budgetMin := some 100, budgetMax := none,
        unitTypes := [], leadStatus := none,
        lastConversationFrom := none, lastConversationTo := none }
      { projectEnquired := "Altura", unitType := "studio", status := "connected",
        lastConversationDate := none, budgetMin := none, budgetMax := some 500 }
      = false :=
  (C8_shortlist_budget _ _ (Or.inl (by simp))).2 (Or.inl ⟨rfl, by simp⟩)

/-- `LeadFilterRequest.active_filters` (src/crm/schemas.py lines 48-58):
how many of the seven filter fields are set, a list field counting only
when non-empty. -/
def LeadFilterRequest.active_filters (r : LeadFilterRequest) : Nat :=
  (if r.projectNames = [] then 0 else 1)
  + (if r.budgetMin = none then 0 else 1)
  + (if r.budgetMax = none then 0 else 1)
  + (if r.unitTypes = [] then 0 else 1)
  + (if r.leadStatus = none then 0 else 1)
  + (if r.lastConversationFrom = none then 0 else 1)
  + (if r.lastConversationTo = none then 0 else 1)

/-- `LeadShortlistResult` (src/crm/services.py lines 13-20). -/
structure LeadShortlistResult where
  leads : List ShortlistLead
  criteria : LeadFilterRequest

/-- One `LeadShortlistService.shortlist` call: its result and whether the
lead table was queried at all. -/
structure ShortlistCall where
  result : Except String LeadShortlistResult
  queried : Bool

/-- `LeadShortlistService.minimum_filters` (src/crm/services.py line 24). -/
def LeadShortlistService.minimum_filters : Nat := 2

/-- `LeadShortlistService.shortlist` (src/crm/services.py lines 26-43):
raises ValidationError before touching the lead table when fewer than
`minimum_filters` filters are active, else runs the queryset filter. -/
def LeadShortlistService.shortlist (db : List ShortlistLead)
    (criteria : LeadFilterRequest) : ShortlistCall :=
  if criteria.active_filters < LeadShortlistService.minimum_filters then
    { result := Except.error
        "Please select at least 2 filter fields before shortlisting leads.",
      queried := false }
  else
    { result := Except.ok
        { leads := db.filter (LeadQuerySet.shortlist criteria),
          criteria := criteria },
      queried := true }

/-- C10: with strictly fewer than 2 active filters (of the seven fields,
a list field counting only when non-empty) `LeadShortlistService.shortlist`
raises ValidationError without querying any leads; with 2 or more it
returns a result, built by filtering the lead table, without raising. -/
theorem C10_shortlist_minimum_filters (db : List ShortlistLead)
    (criteria : LeadFilterRequest) :
    if criteria.active_filters < 2 then
      (∃ e, (LeadShortlistService.shortlist db criteria).result = Except.error e)
      ∧ (LeadShortlistService.shortlist db criteria).queried = false
    else
      (∃ res, (LeadShortlistService.shortlist db criteria).result = Except.ok res
          ∧ res.leads = db.filter (LeadQuerySet.shortlist criteria))
      ∧ (LeadShortlistService.shortlist db criteria).queried = true := by
  unfold LeadShortlistService.shortlist LeadShortlistService.minimum_filters
  by_cases h : criteria.active_filters < 2 <;> simp [h]
